import Mathlib

/-!
Verification of the `musicballs` particle/audio engine (`src/src/App.js`).

The engine is embedded shallowly:

* JavaScript numbers are modelled as `Option ℚ`: `some q` is a finite number
  with exact rational value `q`, and `none` stands for a non-finite value
  (`NaN`, or an infinity immediately multiplied into `NaN` on the paths the
  theorems touch).  JavaScript comparisons on `NaN` are false, division by
  zero never yields a finite value, and arithmetic propagates non-finite
  values, which the `js*` operations below reproduce.  Quantities that the
  program only ever multiplies by positive literals (radii, canvas sizes,
  clock time) stay plain `ℚ`.
* `Math.sqrt` is a parameter `sq : ℚ → ℚ` applied to non-negative finite
  arguments (negative or non-finite arguments give `NaN`); theorems assume of
  `sq` only what they need, and concrete runs use `ratSqrt`, which is exact
  on perfect squares.
* `noise.perlin3` is a parameter `nf : ℚ → ℚ → ℚ → ℚ`; concrete runs use the
  everywhere-zero field `zeroNoise`.
* Particles carry a ghost `id : ℕ` naming the logical particle across the
  per-tick `map` (the JS objects are rebuilt by spread each tick, so object
  identity does not survive a tick; the reference check `particle !==
  otherParticle` is modelled as `id` inequality, which agrees with it on
  stores whose ids are distinct).
-/

namespace MusicBalls

/-- JavaScript number: `some q` is the finite value `q`, `none` is non-finite
(`NaN` / an infinity that the surrounding expression turns into `NaN`). -/
abbrev JSNum := Option ℚ

/-- JavaScript addition; non-finite operands propagate. -/
def jsAdd : JSNum → JSNum → JSNum
  | some a, some b => some (a + b)
  | _, _ => none

/-- JavaScript subtraction; non-finite operands propagate. -/
def jsSub : JSNum → JSNum → JSNum
  | some a, some b => some (a - b)
  | _, _ => none

/-- JavaScript multiplication; non-finite operands propagate. -/
def jsMul : JSNum → JSNum → JSNum
  | some a, some b => some (a * b)
  | _, _ => none

/-- JavaScript division: dividing by zero never yields a finite value
(`0/0 = NaN`, `x/0 = ±Infinity`); non-finite operands propagate. -/
def jsDiv : JSNum → JSNum → JSNum
  | some a, some b => if b = 0 then none else some (a / b)
  | _, _ => none

/-- JavaScript `Math.sqrt` with an exact-square-root oracle `sq` for the
non-negative finite arguments; negative or non-finite arguments give `NaN`. -/
def jsSqrt (sq : ℚ → ℚ) : JSNum → JSNum
  | some a => if a < 0 then none else some (sq a)
  | none => none

/-- JavaScript `<=`: comparisons involving `NaN` are false. -/
def jsLe : JSNum → JSNum → Bool
  | some a, some b => a ≤ b
  | _, _ => false

/-- JavaScript `<`: comparisons involving `NaN` are false. -/
def jsLt : JSNum → JSNum → Bool
  | some a, some b => a < b
  | _, _ => false

/-- Turbulence field: abstract stand-in for `noise.perlin3`. -/
abbrev NoiseFn := ℚ → ℚ → ℚ → ℚ

/-- Lift a noise field to JavaScript numbers (sampling at a `NaN` coordinate
returns `NaN`). -/
def jsNoise (nf : NoiseFn) (a b : JSNum) (t : ℚ) : JSNum :=
  match a, b with
  | some a, some b => some (nf a b t)
  | _, _ => none

/-- The everywhere-zero turbulence field, used for concrete runs. -/
def zeroNoise : NoiseFn := fun _ _ _ => 0

/-! Adjustable parameters of `App.js` (lines 18–26). -/

def INITIAL_RADIUS : ℚ := 150
def MIN_RADIUS : ℚ := 15
def RADIUS_DECREASE_FACTOR : ℚ := 9 / 10
def INITIAL_VELOCITY : ℚ := 10
def VELOCITY_INCREASE_FACTOR : ℚ := 51 / 50
def MAX_VOLUME : ℚ := 3 / 10
def MAX_POLYPHONY : ℕ := 16
def TURBULENCE_STRENGTH : ℚ := 1 / 5
def TURBULENCE_FREQUENCY : ℚ := 1 / 20

/-- Arena bounds (`canvas.width`, `canvas.height`). -/
structure Canvas where
  width : ℚ
  height : ℚ
deriving DecidableEq, Repr

/-- Particle record `{x, y, vx, vy, radius, note}` of `App.js`, plus a ghost
`id` naming the logical particle across ticks (see the file header).  The
radius is plain `ℚ`: the program only ever multiplies it by the literal
`RADIUS_DECREASE_FACTOR`, so it stays finite. -/
structure Particle where
  id : ℕ
  x : JSNum
  y : JSNum
  vx : JSNum
  vy : JSNum
  radius : ℚ
  note : String
deriving DecidableEq, Repr

/-- Collision event: the arguments of the `playNote(note, collisionX, radius)`
call made from `updateParticle` (radius is the pre-shrink radius). -/
structure TriggerEvent where
  note : String
  impactX : JSNum
  radius : ℚ
deriving DecidableEq, Repr

/-- Result of the wall-collision section of `updateParticle`
(`App.js` lines 173–183): velocities after any inversion, the `collided`
flag, and the running `collisionX`. -/
structure WallOut where
  vx : JSNum
  vy : JSNum
  collided : Bool
  collisionX : JSNum
deriving DecidableEq, Repr

/-- Wall test of `updateParticle` (`App.js` lines 173–183).  `vx`/`vy` are the
turbulence-perturbed velocities; `nextX`/`nextY` were computed from the
pre-turbulence velocity.  A vertical-wall strike clamps `collisionX` to the
nearer wall; a horizontal-wall strike overwrites it with the pre-motion `x`. -/
def wallStep (nextX nextY x vx vy : JSNum) (radius : ℚ) (c : Canvas) : WallOut :=
  let s1 : WallOut :=
    if jsLe (jsSub nextX (some radius)) (some 0)
        || jsLe (some c.width) (jsAdd nextX (some radius)) then
      { vx := jsMul vx (some (-1)), vy := vy, collided := true,
        collisionX := if jsLe (jsSub nextX (some radius)) (some 0) then some radius
                      else some (c.width - radius) }
    else
      { vx := vx, vy := vy, collided := false, collisionX := x }
  if jsLe (jsSub nextY (some radius)) (some 0)
      || jsLe (some c.height) (jsAdd nextY (some radius)) then
    { s1 with vy := jsMul s1.vy (some (-1)), collided := true, collisionX := x }
  else
    s1

/-- Mutable locals of the `particles.forEach` pass of `updateParticle`
(`App.js` lines 186–219). -/
structure PairState where
  x : JSNum
  y : JSNum
  vx : JSNum
  vy : JSNum
  collided : Bool
  collisionX : JSNum
deriving DecidableEq, Repr

/-- One iteration of the `particles.forEach` pass of `updateParticle`
(`App.js` lines 186–219): detection compares the distance from this
particle's tentative position to the other's current position against the
radius sum; resolution applies the elastic impulse to this particle's
velocity and half the overlap to its position. -/
def pairStep (sq : ℚ → ℚ) (me : Particle) (nextX nextY : JSNum)
    (st : PairState) (other : Particle) : PairState :=
  if other.id = me.id then st
  else
    let dx := jsSub other.x nextX
    let dy := jsSub other.y nextY
    let distance := jsSqrt sq (jsAdd (jsMul dx dx) (jsMul dy dy))
    let minDistance : ℚ := me.radius + other.radius
    if jsLt distance (some minDistance) then
      let nx := jsDiv dx distance
      let ny := jsDiv dy distance
      let relVx := jsSub st.vx other.vx
      let relVy := jsSub st.vy other.vy
      let impulse := jsDiv
        (jsMul (some 2) (jsAdd (jsMul relVx nx) (jsMul relVy ny)))
        (some (1 / me.radius + 1 / other.radius))
      let overlap := jsSub (some minDistance) distance
      { x := jsSub st.x (jsMul (jsMul overlap nx) (some (1 / 2))),
        y := jsSub st.y (jsMul (jsMul overlap ny) (some (1 / 2))),
        vx := jsSub st.vx (jsDiv (jsMul impulse nx) (some me.radius)),
        vy := jsSub st.vy (jsDiv (jsMul impulse ny) (some me.radius)),
        collided := true,
        collisionX := nextX }
    else
      st

/-- Body of `updateParticle` (`App.js` lines 158–234) after the two
turbulence samples `turbX`, `turbY` (the source's `turbulenceX`,
`turbulenceY` locals) have been computed.  Returns the updated particle and
the `playNote` call it makes, if any, as a `TriggerEvent`.  On collision the
radius shrinks and the speed is rescaled by
`(v / speed) * (speed * VELOCITY_INCREASE_FACTOR)` exactly as written — at
zero speed this divides zero by zero. -/
def updateParticleCore (sq : ℚ → ℚ) (p : Particle) (c : Canvas)
    (particles : List Particle) (turbX turbY : JSNum) : Particle × Option TriggerEvent :=
  let nextX := jsAdd p.x p.vx
  let nextY := jsAdd p.y p.vy
  let w := wallStep nextX nextY p.x (jsAdd p.vx turbX) (jsAdd p.vy turbY) p.radius c
  let st0 : PairState :=
    { x := p.x, y := p.y, vx := w.vx, vy := w.vy,
      collided := w.collided, collisionX := w.collisionX }
  let st := particles.foldl (pairStep sq p nextX nextY) st0
  if st.collided then
    let speed := jsSqrt sq (jsAdd (jsMul st.vx st.vx) (jsMul st.vy st.vy))
    let newSpeed := jsMul speed (some VELOCITY_INCREASE_FACTOR)
    ({ p with x := st.x, y := st.y,
              vx := jsMul (jsDiv st.vx speed) newSpeed,
              vy := jsMul (jsDiv st.vy speed) newSpeed,
              radius := p.radius * RADIUS_DECREASE_FACTOR },
     some { note := p.note, impactX := st.collisionX, radius := p.radius })
  else
    ({ p with x := nextX, y := nextY, vx := st.vx, vy := st.vy }, none)

/-- One particle update (`updateParticle`, `App.js` lines 158–234): sample
the turbulence field at the source's two offsets, scale by
`TURBULENCE_STRENGTH`, and run the collision body. -/
def updateParticle (nf : NoiseFn) (sq : ℚ → ℚ) (p : Particle) (c : Canvas)
    (particles : List Particle) (time : ℚ) : Particle × Option TriggerEvent :=
  updateParticleCore sq p c particles
    (jsMul
      (jsNoise nf (jsMul p.x (some TURBULENCE_FREQUENCY))
        (jsMul p.y (some TURBULENCE_FREQUENCY)) (time * (1 / 10)))
      (some TURBULENCE_STRENGTH))
    (jsMul
      (jsNoise nf (jsAdd (jsMul p.x (some TURBULENCE_FREQUENCY)) (some 100))
        (jsAdd (jsMul p.y (some TURBULENCE_FREQUENCY)) (some 100)) (time * (1 / 10)))
      (some TURBULENCE_STRENGTH))

/-! ### Simulation loop (store update of `animate`, `App.js` lines 243–247)

`animate` filters out particles whose radius is `≤ MIN_RADIUS`, then maps
`updateParticle` over the survivors, passing the *unfiltered* pre-tick list
(`particlesRef.current`) as the neighbour set. -/

/-- Store update of one `animate` tick (`App.js` lines 243–247), keeping only
the updated particles (the emitted events go to `playNote` and do not feed
back into the store). -/
def animate (nf : NoiseFn) (sq : ℚ → ℚ) (c : Canvas) (time : ℚ)
    (ps : List Particle) : List Particle :=
  (ps.filter fun p => decide (MIN_RADIUS < p.radius)).map
    fun p => (updateParticle nf sq p c ps time).1

/-- Iterated ticks of the simulation loop; `times n` is the clock value of
tick `n` (`Date.now() * 0.001` at that frame). -/
def runTicks (nf : NoiseFn) (sq : ℚ → ℚ) (c : Canvas) (times : ℕ → ℚ)
    (ps : List Particle) : ℕ → List Particle
  | 0 => ps
  | n + 1 => animate nf sq c (times n) (runTicks nf sq c times ps n)

/-! ### Voice allocator (`playNote`, `App.js` lines 112–156)

`activeSourcesRef.current` is a plain JavaScript object keyed by note name.
Its keys are non-numeric strings, so `Object.keys`/`Object.values` list them
in insertion order, assignment to an existing key keeps that key's position,
and `delete` removes it.  The object is modelled as an insertion-ordered
association list `List (String × ℕ)`, where the `ℕ` is the creation index of
the buffer source stored there.  `stopped` logs every `.stop()` call in
order, and `nextId` numbers sources by creation. -/

/-- Read `obj[k]` of an insertion-ordered JavaScript object. -/
def objGet (k : String) : List (String × ℕ) → Option ℕ
  | [] => none
  | (k₁, v) :: rest => if k₁ = k then some v else objGet k rest

/-- Write `obj[k] = v`: an existing key keeps its position, a new key is
appended. -/
def objSet (k : String) (v : ℕ) : List (String × ℕ) → List (String × ℕ)
  | [] => [(k, v)]
  | (k₁, v₁) :: rest =>
    if k₁ = k then (k₁, v) :: rest else (k₁, v₁) :: objSet k v rest

/-- Run `delete obj[k]`. -/
def objDelete (k : String) : List (String × ℕ) → List (String × ℕ)
  | [] => []
  | (k₁, v₁) :: rest =>
    if k₁ = k then rest else (k₁, v₁) :: objDelete k rest

/-- State of the audio subsystem that `playNote` manipulates. -/
structure AudioState where
  active : List (String × ℕ)
  nextId : ℕ
  stopped : List ℕ
deriving DecidableEq, Repr

/-- Audio state before any voice has played. -/
def initialAudioState : AudioState := { active := [], nextId := 0, stopped := [] }

/-- Voice-allocation logic of `playNote` (`App.js` lines 112–156).  `loaded`
tells which notes the sample bank holds.  If the note's previous source is
still tracked it is stopped (but its map entry is left to be overwritten);
if the map then holds at least `MAX_POLYPHONY` entries, the source stored
first (`Object.values(...)[0]`) is stopped and its key deleted; finally the
new source is created, started, and stored under `note`. -/
def playNote (audioInitialized : Bool) (loaded : String → Bool) (note : String)
    (st : AudioState) : AudioState :=
  if audioInitialized && loaded note then
    let st1 :=
      match objGet note st.active with
      | some oldId => { st with stopped := st.stopped ++ [oldId] }
      | none => st
    let st2 :=
      if MAX_POLYPHONY ≤ st1.active.length then
        match st1.active with
        | [] => st1
        | (k₀, v₀) :: rest =>
          { st1 with active := rest, stopped := st1.stopped ++ [v₀] }
      else st1
    { st2 with active := objSet note st2.nextId st2.active,
               nextId := st2.nextId + 1 }
  else st

/-- The `source.onended` callback of the source created for `note`
(`App.js` lines 152–154): it deletes the map entry *by note key*,
whichever source is stored there by the time it runs. -/
def voiceEnded (note : String) (st : AudioState) : AudioState :=
  { st with active := objDelete note st.active }

/-- Fire a list of notes through `playNote` in order. -/
def playNotes (audioInitialized : Bool) (loaded : String → Bool)
    (notes : List String) (st : AudioState) : AudioState :=
  notes.foldl (fun s n => playNote audioInitialized loaded n s) st

/-- Pan computation of `playNote` (`App.js` line 134):
`(x / canvas.width) * 2 - 1`. -/
def panValue (x width : ℚ) : ℚ := x / width * 2 - 1

/-! ### Spawner (`getRandomPosition`, `App.js` lines 298–320) -/

/-- Candidate point of attempt `k` of `getRandomPosition` (`App.js` lines
302–304): a margin of 20% of the canvas *width* is inset from each edge, and
`rand k` supplies the two `Math.random()` draws of that attempt. -/
def attemptPoint (rand : ℕ → ℚ × ℚ) (c : Canvas) (k : ℕ) : ℚ × ℚ :=
  let margin := c.width * (1 / 5)
  (margin + (rand k).1 * (c.width - 2 * margin),
   margin + (rand k).2 * (c.height - 2 * margin))

/-- Acceptance test of `getRandomPosition` (`App.js` lines 306–311): every
existing particle's distance to the candidate exceeds
`INITIAL_RADIUS * 2`. -/
def isFarEnough (sq : ℚ → ℚ) (existing : List Particle) (x y : ℚ) : Bool :=
  existing.all fun p =>
    jsLt (some (INITIAL_RADIUS * 2))
      (jsSqrt sq (jsAdd (jsMul (jsSub p.x (some x)) (jsSub p.x (some x)))
                        (jsMul (jsSub p.y (some y)) (jsSub p.y (some y)))))

/-- Placement loop of `getRandomPosition` (`App.js` lines 298–320): the first
of 100 candidate points far enough from every existing particle, or the
arena centre if all 100 fail.  The `radius` argument is unused, as in the
source. -/
def getRandomPosition (sq : ℚ → ℚ) (rand : ℕ → ℚ × ℚ) (c : Canvas)
    (existing : List Particle) (radius : ℚ) : ℚ × ℚ :=
  match (List.range 100).find? (fun k =>
      isFarEnough sq existing (attemptPoint rand c k).1 (attemptPoint rand c k).2) with
  | some k => attemptPoint rand c k
  | none => (c.width / 2, c.height / 2)

/-- The 24-entry note set of `App.js` (lines 11–15). -/
def NOTES : List String :=
  ["EP_Bb2", "EP_Bb3", "EP_A2", "EP_A3", "EP_B2", "EP_B3", "EP_Db2", "EP_Db3",
   "EP_C2", "EP_C3", "EP_Eb2", "EP_Eb3", "EP_D2", "EP_D3", "EP_E2", "EP_E3",
   "EP_Gb2", "EP_Gb3", "EP_F2", "EP_F3", "EP_Ab2", "EP_Ab3", "EP_G2", "EP_G3"]

/-! ## Helper lemmas -/

/-- The two exits of `updateParticle`: a collision shrinks the radius by
`RADIUS_DECREASE_FACTOR` and emits an event; otherwise radius is untouched
and no event is emitted. -/
lemma updateParticle_radius_cases (nf : NoiseFn) (sq : ℚ → ℚ) (p : Particle)
    (c : Canvas) (ps : List Particle) (t : ℚ) :
    ((updateParticle nf sq p c ps t).1.radius = p.radius * RADIUS_DECREASE_FACTOR ∧
      (updateParticle nf sq p c ps t).2.isSome = true) ∨
    ((updateParticle nf sq p c ps t).1.radius = p.radius ∧
      (updateParticle nf sq p c ps t).2 = none) := by
  simp only [updateParticle, updateParticleCore]
  split
  · exact Or.inl ⟨rfl, rfl⟩
  · exact Or.inr ⟨rfl, rfl⟩

/-- `updateParticle` preserves the ghost particle id. -/
lemma updateParticle_id (nf : NoiseFn) (sq : ℚ → ℚ) (p : Particle)
    (c : Canvas) (ps : List Particle) (t : ℚ) :
    (updateParticle nf sq p c ps t).1.id = p.id := by
  simp only [updateParticle, updateParticleCore]
  split <;> rfl

/-- The per-other collision pass moves the position/collision components of
two states in lockstep whenever they agree on them, whatever the velocity
components are. -/
lemma pairStep_proj (sq : ℚ → ℚ) (me : Particle) (nX nY : JSNum)
    (s t : PairState) (o : Particle)
    (hx : s.x = t.x) (hy : s.y = t.y) (hc : s.collided = t.collided)
    (hcx : s.collisionX = t.collisionX) :
    (pairStep sq me nX nY s o).x = (pairStep sq me nX nY t o).x ∧
    (pairStep sq me nX nY s o).y = (pairStep sq me nX nY t o).y ∧
    (pairStep sq me nX nY s o).collided = (pairStep sq me nX nY t o).collided ∧
    (pairStep sq me nX nY s o).collisionX = (pairStep sq me nX nY t o).collisionX := by
  by_cases h1 : o.id = me.id
  · simp [pairStep, h1, hx, hy, hc, hcx]
  · by_cases h2 : jsLt (jsSqrt sq (jsAdd (jsMul (jsSub o.x nX) (jsSub o.x nX))
        (jsMul (jsSub o.y nY) (jsSub o.y nY)))) (some (me.radius + o.radius)) = true
    · simp [pairStep, h1, h2, hx, hy, hc, hcx]
    · simp [pairStep, h1, h2, hx, hy, hc, hcx]

/-- Folding the collision pass preserves lockstep agreement of the
position/collision components. -/
lemma foldl_pairStep_proj (sq : ℚ → ℚ) (me : Particle) (nX nY : JSNum)
    (ps : List Particle) (s t : PairState)
    (hx : s.x = t.x) (hy : s.y = t.y) (hc : s.collided = t.collided)
    (hcx : s.collisionX = t.collisionX) :
    (ps.foldl (pairStep sq me nX nY) s).x = (ps.foldl (pairStep sq me nX nY) t).x ∧
    (ps.foldl (pairStep sq me nX nY) s).y = (ps.foldl (pairStep sq me nX nY) t).y ∧
    (ps.foldl (pairStep sq me nX nY) s).collided
      = (ps.foldl (pairStep sq me nX nY) t).collided ∧
    (ps.foldl (pairStep sq me nX nY) s).collisionX
      = (ps.foldl (pairStep sq me nX nY) t).collisionX := by
  induction ps generalizing s t with
  | nil => exact ⟨hx, hy, hc, hcx⟩
  | cons o rest ih =>
    obtain ⟨hx', hy', hc', hcx'⟩ := pairStep_proj sq me nX nY s t o hx hy hc hcx
    exact ih (pairStep sq me nX nY s o) (pairStep sq me nX nY t o) hx' hy' hc' hcx'

/-- The wall pass computes its `collided` flag and `collisionX` from the
tentative position only, never from the (turbulence-dependent) velocities. -/
lemma wallStep_proj (nX nY x : JSNum) (vx₁ vy₁ vx₂ vy₂ : JSNum) (r : ℚ) (c : Canvas) :
    (wallStep nX nY x vx₁ vy₁ r c).collided = (wallStep nX nY x vx₂ vy₂ r c).collided ∧
    (wallStep nX nY x vx₁ vy₁ r c).collisionX = (wallStep nX nY x vx₂ vy₂ r c).collisionX := by
  by_cases h1 : (jsLe (jsSub nX (some r)) (some 0)
      || jsLe (some c.width) (jsAdd nX (some r))) = true
  · by_cases h2 : (jsLe (jsSub nY (some r)) (some 0)
        || jsLe (some c.height) (jsAdd nY (some r))) = true
    · simp [wallStep, h1, h2]
    · simp [wallStep, h1, h2]
  · by_cases h2 : (jsLe (jsSub nY (some r)) (some 0)
        || jsLe (some c.height) (jsAdd nY (some r))) = true
    · simp [wallStep, h1, h2]
    · simp [wallStep, h1, h2]

/-! ## Claims -/

/-- C4: For every particle (with the positive radius the data model
guarantees), one tick never increases its radius, and any tick that reports a
collision (emits a trigger event) strictly decreases it. -/
theorem radius_nonincreasing_strict_on_collision (nf : NoiseFn) (sq : ℚ → ℚ)
    (p : Particle) (c : Canvas) (ps : List Particle) (t : ℚ)
    (h0 : 0 < p.radius) :
    (updateParticle nf sq p c ps t).1.radius ≤ p.radius ∧
    ((updateParticle nf sq p c ps t).2.isSome = true →
      (updateParticle nf sq p c ps t).1.radius < p.radius) := by
  rcases updateParticle_radius_cases nf sq p c ps t with ⟨hr, _⟩ | ⟨hr, he⟩
  · rw [hr]
    have hlt : p.radius * RADIUS_DECREASE_FACTOR < p.radius := by
      rw [RADIUS_DECREASE_FACTOR]
      nlinarith
    exact ⟨le_of_lt hlt, fun _ => hlt⟩
  · rw [hr, he]
    exact ⟨le_refl _, by simp⟩

/-- Witness for C4: a particle of radius 150 overlapping the left wall
collides, and its radius strictly shrinks (to 135). -/
theorem radius_nonincreasing_strict_on_collision_witness :
    (0 : ℚ) < (150 : ℚ) ∧
    ((updateParticle zeroNoise (fun _ => 0)
        { id := 0, x := some 5, y := some 500, vx := some 10, vy := some 0,
          radius := 150, note := "EP_C2" }
        { width := 1000, height := 1000 } [] 0).1.radius ≤ 150 ∧
      ((updateParticle zeroNoise (fun _ => 0)
          { id := 0, x := some 5, y := some 500, vx := some 10, vy := some 0,
            radius := 150, note := "EP_C2" }
          { width := 1000, height := 1000 } [] 0).2.isSome = true →
        (updateParticle zeroNoise (fun _ => 0)
          { id := 0, x := some 5, y := some 500, vx := some 10, vy := some 0,
            radius := 150, note := "EP_C2" }
          { width := 1000, height := 1000 } [] 0).1.radius < 150)) :=
  ⟨by norm_num,
   radius_nonincreasing_strict_on_collision zeroNoise (fun _ => 0)
     { id := 0, x := some 5, y := some 500, vx := some 10, vy := some 0,
       radius := 150, note := "EP_C2" }
     { width := 1000, height := 1000 } [] 0 (by norm_num)⟩

/-- The collision body's emitted event does not depend on the turbulence
sample: turbulence changes only the committed velocity, never detection or
the impact point. -/
lemma updateParticleCore_event_indep (sq : ℚ → ℚ) (p : Particle) (c : Canvas)
    (ps : List Particle) (tx₁ ty₁ tx₂ ty₂ : JSNum) :
    (updateParticleCore sq p c ps tx₁ ty₁).2 = (updateParticleCore sq p c ps tx₂ ty₂).2 := by
  obtain ⟨hc, hcx⟩ := wallStep_proj (jsAdd p.x p.vx) (jsAdd p.y p.vy) p.x
    (jsAdd p.vx tx₁) (jsAdd p.vy ty₁) (jsAdd p.vx tx₂) (jsAdd p.vy ty₂) p.radius c
  obtain ⟨_, _, hc', hcx'⟩ := foldl_pairStep_proj sq p (jsAdd p.x p.vx) (jsAdd p.y p.vy) ps
    { x := p.x, y := p.y,
      vx := (wallStep (jsAdd p.x p.vx) (jsAdd p.y p.vy) p.x
        (jsAdd p.vx tx₁) (jsAdd p.vy ty₁) p.radius c).vx,
      vy := (wallStep (jsAdd p.x p.vx) (jsAdd p.y p.vy) p.x
        (jsAdd p.vx tx₁) (jsAdd p.vy ty₁) p.radius c).vy,
      collided := (wallStep (jsAdd p.x p.vx) (jsAdd p.y p.vy) p.x
        (jsAdd p.vx tx₁) (jsAdd p.vy ty₁) p.radius c).collided,
      collisionX := (wallStep (jsAdd p.x p.vx) (jsAdd p.y p.vy) p.x
        (jsAdd p.vx tx₁) (jsAdd p.vy ty₁) p.radius c).collisionX }
    { x := p.x, y := p.y,
      vx := (wallStep (jsAdd p.x p.vx) (jsAdd p.y p.vy) p.x
        (jsAdd p.vx tx₂) (jsAdd p.vy ty₂) p.radius c).vx,
      vy := (wallStep (jsAdd p.x p.vx) (jsAdd p.y p.vy) p.x
        (jsAdd p.vx tx₂) (jsAdd p.vy ty₂) p.radius c).vy,
      collided := (wallStep (jsAdd p.x p.vx) (jsAdd p.y p.vy) p.x
        (jsAdd p.vx tx₂) (jsAdd p.vy ty₂) p.radius c).collided,
      collisionX := (wallStep (jsAdd p.x p.vx) (jsAdd p.y p.vy) p.x
        (jsAdd p.vx tx₂) (jsAdd p.vy ty₂) p.radius c).collisionX }
    rfl rfl hc hcx
  simp only [updateParticleCore]
  rw [hc', hcx']
  split <;> rfl

/-- C9: The tentative position used by the wall test and the pairwise
distance test is computed from the pre-turbulence velocity, so changing the
turbulence field (here: comparing any two noise fields) never changes whether
a collision is detected — indeed the emitted trigger event is identical,
impact point and all. -/
theorem turbulence_never_changes_detection (nf₁ nf₂ : NoiseFn) (sq : ℚ → ℚ)
    (p : Particle) (c : Canvas) (ps : List Particle) (t : ℚ) :
    (updateParticle nf₁ sq p c ps t).2 = (updateParticle nf₂ sq p c ps t).2 := by
  simp only [updateParticle]
  exact updateParticleCore_event_indep sq p c ps _ _ _ _

/-- C1: Failing input for the zero-speed rescale.  A stationary particle
overlapping the left wall collides (`nextX - radius = -145 ≤ 0`), its
velocity is still `(0, 0)` after wall inversion and the (empty) impulse pass,
so `speed = 0` — and the rescale is *not* skipped: the code computes
`vx = (vx / speed) * (speed * VELOCITY_INCREASE_FACTOR)`, i.e. `0/0 = NaN`
(`none`).  The committed velocity is `NaN`, not the zero the spec prescribes
(no exception is raised, matching that much of the claim).  The square-root
oracle is `fun _ => 0`, which agrees with `Math.sqrt` at the only argument
reached, `0`. -/
theorem zero_speed_after_impulse_becomes_nan :
    updateParticle zeroNoise (fun _ => 0)
      { id := 0, x := some 5, y := some 500, vx := some 0, vy := some 0,
        radius := 150, note := "EP_C2" }
      { width := 1000, height := 1000 }
      [{ id := 0, x := some 5, y := some 500, vx := some 0, vy := some 0,
         radius := 150, note := "EP_C2" }] 0
    = ({ id := 0, x := some 5, y := some 500, vx := none, vy := none,
         radius := 135, note := "EP_C2" },
       some { note := "EP_C2", impactX := some 150, radius := 150 }) := by
  norm_num [updateParticle, updateParticleCore, wallStep, pairStep, jsAdd,
    jsSub, jsMul, jsDiv, jsSqrt, jsLe, jsLt, jsNoise, zeroNoise,
    TURBULENCE_FREQUENCY, TURBULENCE_STRENGTH, VELOCITY_INCREASE_FACTOR,
    RADIUS_DECREASE_FACTOR]

/-- C6: One particle of radius 150, velocity (10, 0), at x = 5 in a
1000-wide arena (turbulence zero, square root correct at the one argument
reached, 100): the tick reports a wall collision whose event carries impact
x = 150 (the radius) and the pre-shrink radius 150; the wall pass leaves
`vx = -10` (the value before speed-increase scaling), and the committed
velocity is exactly that value scaled by `VELOCITY_INCREASE_FACTOR`. -/
theorem wall_bounce_scenario (sq : ℚ → ℚ) (hsq : sq 100 = 10) :
    (updateParticle zeroNoise sq
        { id := 0, x := some 5, y := some 500, vx := some 10, vy := some 0,
          radius := 150, note := "EP_C2" }
        { width := 1000, height := 1000 }
        [{ id := 0, x := some 5, y := some 500, vx := some 10, vy := some 0,
           radius := 150, note := "EP_C2" }] 0).2
      = some { note := "EP_C2", impactX := some 150, radius := 150 } ∧
    wallStep (some 15) (some 500) (some 5) (some 10) (some 0) 150
        { width := 1000, height := 1000 }
      = { vx := some (-10), vy := some 0, collided := true, collisionX := some 150 } ∧
    (updateParticle zeroNoise sq
        { id := 0, x := some 5, y := some 500, vx := some 10, vy := some 0,
          radius := 150, note := "EP_C2" }
        { width := 1000, height := 1000 }
        [{ id := 0, x := some 5, y := some 500, vx := some 10, vy := some 0,
           radius := 150, note := "EP_C2" }] 0).1.vx
      = some (-10 * VELOCITY_INCREASE_FACTOR) := by
  refine ⟨?_, ?_, ?_⟩ <;>
    norm_num [updateParticle, updateParticleCore, wallStep, pairStep, jsAdd,
      jsSub, jsMul, jsDiv, jsSqrt, jsLe, jsLt, jsNoise, zeroNoise, hsq,
      TURBULENCE_FREQUENCY, TURBULENCE_STRENGTH, VELOCITY_INCREASE_FACTOR,
      RADIUS_DECREASE_FACTOR]

/-- Witness for C6 at the square-root oracle that sends 100 to 10. -/
theorem wall_bounce_scenario_witness :
    (fun q => if q = (100 : ℚ) then (10 : ℚ) else 0) 100 = 10 ∧
    ((updateParticle zeroNoise (fun q => if q = (100 : ℚ) then (10 : ℚ) else 0)
        { id := 0, x := some 5, y := some 500, vx := some 10, vy := some 0,
          radius := 150, note := "EP_C2" }
        { width := 1000, height := 1000 }
        [{ id := 0, x := some 5, y := some 500, vx := some 10, vy := some 0,
           radius := 150, note := "EP_C2" }] 0).2
      = some { note := "EP_C2", impactX := some 150, radius := 150 } ∧
    wallStep (some 15) (some 500) (some 5) (some 10) (some 0) 150
        { width := 1000, height := 1000 }
      = { vx := some (-10), vy := some 0, collided := true, collisionX := some 150 } ∧
    (updateParticle zeroNoise (fun q => if q = (100 : ℚ) then (10 : ℚ) else 0)
        { id := 0, x := some 5, y := some 500, vx := some 10, vy := some 0,
          radius := 150, note := "EP_C2" }
        { width := 1000, height := 1000 }
        [{ id := 0, x := some 5, y := some 500, vx := some 10, vy := some 0,
           radius := 150, note := "EP_C2" }] 0).1.vx
      = some (-10 * VELOCITY_INCREASE_FACTOR)) :=
  ⟨by norm_num, wall_bounce_scenario (fun q => if q = (100 : ℚ) then (10 : ℚ) else 0)
    (by norm_num)⟩

/-- C10: A lone particle whose tentative position crosses a vertical wall
and a horizontal wall in the same tick has both velocity components inverted
by the wall pass, but the emitted event's impact x is the *pre-motion* x: the
horizontal-wall branch overwrites the vertical-wall branch's clamped value
with `x`.  Turbulence is zero so the inverted components are exactly the
negated inputs. -/
theorem corner_bounce_reports_premotion_x (sq : ℚ → ℚ) (n : ℕ)
    (x y vx vy r t : ℚ) (note : String) (c : Canvas)
    (hx : x + vx - r ≤ 0 ∨ c.width ≤ x + vx + r)
    (hy : y + vy - r ≤ 0 ∨ c.height ≤ y + vy + r) :
    (updateParticle zeroNoise sq
        { id := n, x := some x, y := some y, vx := some vx, vy := some vy,
          radius := r, note := note } c
        [{ id := n, x := some x, y := some y, vx := some vx, vy := some vy,
           radius := r, note := note }] t).2
      = some { note := note, impactX := some x, radius := r } ∧
    wallStep (some (x + vx)) (some (y + vy)) (some x) (some vx) (some vy) r c
      = { vx := some (-vx), vy := some (-vy), collided := true,
          collisionX := some x } := by
  have h1 : (jsLe (jsSub (some (x + vx)) (some r)) (some 0)
      || jsLe (some c.width) (jsAdd (some (x + vx)) (some r))) = true := by
    rcases hx with h | h <;> simp [jsLe, jsSub, jsAdd, h]
  have h2 : (jsLe (jsSub (some (y + vy)) (some r)) (some 0)
      || jsLe (some c.height) (jsAdd (some (y + vy)) (some r))) = true := by
    rcases hy with h | h <;> simp [jsLe, jsSub, jsAdd, h]
  have hw : wallStep (some (x + vx)) (some (y + vy)) (some x) (some vx) (some vy) r c
      = { vx := some (-vx), vy := some (-vy), collided := true,
          collisionX := some x } := by
    simp [wallStep, h1, h2, jsMul, mul_neg_one]
  refine ⟨?_, hw⟩
  simp only [updateParticle, updateParticleCore, jsAdd, jsMul, jsNoise,
    zeroNoise, zero_mul, add_zero]
  rw [hw]
  simp [pairStep]

/-- Witness for C10: a particle overlapping both the left and the top wall. -/
theorem corner_bounce_reports_premotion_x_witness :
    (((5 : ℚ) + 1 - 150 ≤ 0 ∨ (1000 : ℚ) ≤ 5 + 1 + 150) ∧
      ((5 : ℚ) + 1 - 150 ≤ 0 ∨ (1000 : ℚ) ≤ 5 + 1 + 150)) ∧
    ((updateParticle zeroNoise (fun _ => 0)
        { id := 0, x := some 5, y := some 5, vx := some 1, vy := some 1,
          radius := 150, note := "EP_A2" } { width := 1000, height := 1000 }
        [{ id := 0, x := some 5, y := some 5, vx := some 1, vy := some 1,
           radius := 150, note := "EP_A2" }] 0).2
      = some { note := "EP_A2", impactX := some 5, radius := 150 } ∧
    wallStep (some ((5 : ℚ) + 1)) (some ((5 : ℚ) + 1)) (some 5) (some 1) (some 1) 150
        { width := 1000, height := 1000 }
      = { vx := some (-1), vy := some (-1), collided := true,
          collisionX := some 5 }) :=
  ⟨⟨Or.inl (by norm_num), Or.inl (by norm_num)⟩,
   corner_bounce_reports_premotion_x (fun _ => 0) 0 5 5 1 1 150 0 "EP_A2"
     { width := 1000, height := 1000 } (Or.inl (by norm_num)) (Or.inl (by norm_num))⟩

/-- C7: The pan computed for a triggered voice is `(x / width) * 2 - 1`: an
affine (hence linear, monotonic) function of the impact x, hitting exactly -1
at `x = 0` and exactly +1 at `x = width`, and strictly increasing in `x`. -/
theorem pan_linear_monotone (w x₁ x₂ : ℚ) (hw : 0 < w) (h : x₁ < x₂) :
    panValue 0 w = -1 ∧ panValue w w = 1 ∧
    panValue x₁ w = 2 / w * x₁ - 1 ∧
    panValue x₁ w < panValue x₂ w := by
  have hw' : w ≠ 0 := ne_of_gt hw
  refine ⟨by simp [panValue], by norm_num [panValue, div_self hw'], ?_, ?_⟩
  · rw [panValue]
    ring
  · have h3 : x₁ * (2 / w) < x₂ * (2 / w) :=
      mul_lt_mul_of_pos_right h (by positivity)
    have e1 : x₁ / w * 2 = x₁ * (2 / w) := by ring
    have e2 : x₂ / w * 2 = x₂ * (2 / w) := by ring
    simp only [panValue]
    linarith

/-- Witness for C7 in a 1000-wide arena with impact points 100 and 900. -/
theorem pan_linear_monotone_witness :
    ((0 : ℚ) < 1000 ∧ (100 : ℚ) < 900) ∧
    (panValue 0 1000 = -1 ∧ panValue 1000 1000 = 1 ∧
     panValue 100 1000 = 2 / 1000 * 100 - 1 ∧
     panValue 100 1000 < panValue 900 1000) :=
  ⟨⟨by norm_num, by norm_num⟩,
   pan_linear_monotone 1000 100 900 (by norm_num) (by norm_num)⟩

/-- Keeping test of the tick filter (`particle.radius > MIN_RADIUS`). -/
lemma animate_mem (nf : NoiseFn) (sq : ℚ → ℚ) (c : Canvas) (t : ℚ)
    (ps : List Particle) (q : Particle) (hq : q ∈ animate nf sq c t ps) :
    ∃ r ∈ ps, MIN_RADIUS < r.radius ∧ q = (updateParticle nf sq r c ps t).1 := by
  simp only [animate, List.mem_map, List.mem_filter] at hq
  obtain ⟨r, ⟨hr, hkeep⟩, rfl⟩ := hq
  exact ⟨r, hr, by simpa using hkeep, rfl⟩

/-- Particle ids never re-enter a store: any id in the post-tick store was in
the pre-tick store. -/
lemma animate_id_mem (nf : NoiseFn) (sq : ℚ → ℚ) (c : Canvas) (t : ℚ)
    (ps : List Particle) (i : ℕ)
    (hi : i ∈ (animate nf sq c t ps).map Particle.id) :
    i ∈ ps.map Particle.id := by
  simp only [List.mem_map] at hi ⊢
  obtain ⟨q, hq, rfl⟩ := hi
  obtain ⟨r, hr, _, rfl⟩ := animate_mem nf sq c t ps q hq
  exact ⟨r, hr, (updateParticle_id nf sq r c ps t).symm ▸ rfl⟩

/-- C5: Once a particle's radius is `≤ MIN_RADIUS` at the end of a tick, its
(ghost) id is absent from the store after every later tick: the top-of-tick
filter drops it, updates preserve ids, and no tick re-introduces an id.  The
store is assumed to hold distinct ids, as produced by spawning. -/
theorem removed_particle_stays_removed (nf : NoiseFn) (sq : ℚ → ℚ) (c : Canvas)
    (times : ℕ → ℚ) (ps : List Particle) (p : Particle) (n : ℕ)
    (hp : p ∈ ps) (hr : p.radius ≤ MIN_RADIUS)
    (hnd : (ps.map Particle.id).Nodup) (hn : 1 ≤ n) :
    p.id ∉ (runTicks nf sq c times ps n).map Particle.id := by
  obtain ⟨m, rfl⟩ : ∃ m, n = m + 1 := ⟨n - 1, (Nat.succ_pred_eq_of_pos hn).symm⟩
  induction m with
  | zero =>
    intro hmem
    simp only [runTicks, List.mem_map] at hmem
    obtain ⟨q, hq, hqid⟩ := hmem
    obtain ⟨r, hrmem, hkeep, rfl⟩ := animate_mem nf sq c (times 0) ps q hq
    rw [updateParticle_id] at hqid
    have : r = p := List.inj_on_of_nodup_map hnd hrmem hp hqid
    rw [this] at hkeep
    exact absurd hr (not_le.mpr hkeep)
  | succ m ih =>
    intro hmem
    exact ih (by omega) (animate_id_mem nf sq c (times (m + 1)) _ p.id hmem)

/-- Witness for C5: a particle of radius 10 (≤ 15) is gone from the store two
ticks later. -/
theorem removed_particle_stays_removed_witness :
    (({ id := 0, x := some 500, y := some 500, vx := some 0, vy := some 0,
        radius := 10, note := "EP_C2" } : Particle) ∈
        [({ id := 0, x := some 500, y := some 500, vx := some 0, vy := some 0,
            radius := 10, note := "EP_C2" } : Particle)] ∧
      ({ id := 0, x := some 500, y := some 500, vx := some 0, vy := some 0,
         radius := 10, note := "EP_C2" } : Particle).radius ≤ MIN_RADIUS) ∧
    (0 : ℕ) ∉ (runTicks zeroNoise (fun _ => 0) { width := 1000, height := 1000 }
        (fun _ => 0)
        [{ id := 0, x := some 500, y := some 500, vx := some 0, vy := some 0,
           radius := 10, note := "EP_C2" }] 2).map Particle.id :=
  ⟨⟨by simp, by norm_num [MIN_RADIUS]⟩,
   removed_particle_stays_removed zeroNoise (fun _ => 0)
     { width := 1000, height := 1000 } (fun _ => 0)
     [{ id := 0, x := some 500, y := some 500, vx := some 0, vy := some 0,
        radius := 10, note := "EP_C2" }]
     { id := 0, x := some 500, y := some 500, vx := some 0, vy := some 0,
       radius := 10, note := "EP_C2" } 2
     (by simp) (by norm_num [MIN_RADIUS]) (by simp) (by norm_num)⟩

/-! ## Association-list lemmas for the active-voice object -/

/-- Number of entries stored under key `k` (JavaScript objects have at most
one, but the association-list model lets us prove it). -/
def countNote (k : String) (l : List (String × ℕ)) : ℕ :=
  (l.filter fun e => decide (e.1 = k)).length

lemma objGet_eq_none_iff (k : String) (l : List (String × ℕ)) :
    objGet k l = none ↔ ∀ e ∈ l, e.1 ≠ k := by
  induction l with
  | nil => simp [objGet]
  | cons e rest ih =>
    by_cases h : e.1 = k
    · simp [objGet, h]
    · simp only [objGet]
      rw [if_neg h]
      simp [ih, h]

lemma objGet_objSet_self (k : String) (v : ℕ) (l : List (String × ℕ)) :
    objGet k (objSet k v l) = some v := by
  induction l with
  | nil => simp [objSet, objGet]
  | cons e rest ih =>
    by_cases h : e.1 = k
    · obtain ⟨k₁, v₁⟩ := e
      simp only [objSet, objGet] at h ⊢
      rw [if_pos h, objGet, if_pos h]
    · obtain ⟨k₁, v₁⟩ := e
      simp only [objSet, objGet] at h ⊢
      rw [if_neg h, objGet, if_neg h]
      exact ih

lemma objSet_append_of_absent (k : String) (v : ℕ) (l : List (String × ℕ))
    (h : ∀ e ∈ l, e.1 ≠ k) : objSet k v l = l ++ [(k, v)] := by
  induction l with
  | nil => rfl
  | cons e rest ih =>
    obtain ⟨k₁, v₁⟩ := e
    have h1 : k₁ ≠ k := h (k₁, v₁) (by simp)
    simp only [objSet]
    rw [if_neg h1, ih fun e he => h e (by simp [he])]
    simp

lemma countNote_eq_zero (k : String) (l : List (String × ℕ))
    (h : ∀ e ∈ l, e.1 ≠ k) : countNote k l = 0 := by
  simp only [countNote, List.length_eq_zero, List.filter_eq_nil_iff]
  intro e he
  simpa using h e he

lemma countNote_objSet (k : String) (v : ℕ) (l : List (String × ℕ))
    (hnd : (l.map Prod.fst).Nodup) : countNote k (objSet k v l) = 1 := by
  induction l with
  | nil => simp [objSet, countNote]
  | cons e rest ih =>
    obtain ⟨k₁, v₁⟩ := e
    simp only [List.map_cons, List.nodup_cons] at hnd
    by_cases h : k₁ = k
    · have hz : (rest.filter fun e => decide (e.1 = k)).length = 0 := by
        apply countNote_eq_zero
        intro e he heq
        exact hnd.1 (by rw [h, ← heq]; exact List.mem_map_of_mem Prod.fst he)
      simp only [objSet]
      rw [if_pos h]
      simp [countNote, List.filter_cons, h, hz]
    · simp only [objSet]
      rw [if_neg h]
      simpa [countNote, List.filter_cons, h] using ih hnd.2

lemma objGet_objDelete_self (k : String) (l : List (String × ℕ))
    (hnd : (l.map Prod.fst).Nodup) : objGet k (objDelete k l) = none := by
  induction l with
  | nil => rfl
  | cons e rest ih =>
    obtain ⟨k₁, v₁⟩ := e
    simp only [List.map_cons, List.nodup_cons] at hnd
    by_cases h : k₁ = k
    · simp only [objDelete]
      rw [if_pos h, objGet_eq_none_iff]
      intro e he heq
      exact hnd.1 (by rw [h, ← heq]; exact List.mem_map_of_mem Prod.fst he)
    · simp only [objDelete]
      rw [if_neg h, objGet, if_neg h]
      exact ih hnd.2

lemma objDelete_objSet (k : String) (v : ℕ) (l : List (String × ℕ))
    (hnd : (l.map Prod.fst).Nodup) : objDelete k (objSet k v l) = objDelete k l := by
  induction l with
  | nil => simp [objSet, objDelete]
  | cons e rest ih =>
    obtain ⟨k₁, v₁⟩ := e
    simp only [List.map_cons, List.nodup_cons] at hnd
    by_cases h : k₁ = k
    · simp only [objSet, objDelete]
      rw [if_pos h, if_pos h]
      simp only [objDelete]
      rw [if_pos h]
    · simp only [objSet, objDelete]
      rw [if_neg h, if_neg h]
      simp only [objDelete]
      rw [if_neg h, ih hnd.2]

/-- Shape of `playNote` on a retrigger (note already tracked) when the
polyphony limit is not yet reached: stop the old source, overwrite the map
entry with the new source. -/
lemma playNote_retrigger_noevict (st : AudioState) (note : String)
    (loaded : String → Bool) (old : ℕ) (hload : loaded note = true)
    (hold : objGet note st.active = some old)
    (hlen : ¬ MAX_POLYPHONY ≤ st.active.length) :
    playNote true loaded note st
      = { active := objSet note st.nextId st.active,
          nextId := st.nextId + 1,
          stopped := st.stopped ++ [old] } := by
  simp only [playNote, hload, hold, Bool.and_self, if_true]
  rw [if_neg hlen]

/-- Shape of `playNote` on a retrigger at the polyphony limit: stop the old
source, evict the head entry, then store the new source. -/
lemma playNote_retrigger_evict (st : AudioState) (note : String)
    (loaded : String → Bool) (old : ℕ) (hd : String × ℕ) (tl : List (String × ℕ))
    (hload : loaded note = true)
    (hold : objGet note st.active = some old)
    (hlen : MAX_POLYPHONY ≤ st.active.length)
    (hact : st.active = hd :: tl) :
    playNote true loaded note st
      = { active := objSet note st.nextId tl,
          nextId := st.nextId + 1,
          stopped := (st.stopped ++ [old]) ++ [hd.2] } := by
  simp only [playNote, hload, hold, Bool.and_self, if_true]
  rw [if_pos hlen, hact]

/-- C2 counterexample: retrigger a note, then run the *old* stopped voice's
`onended` callback.  The callback deletes the map entry by note key — which by
then holds the *new* voice — so the active set ends with zero entries for the
note, not the one entry the claim asserts. -/
theorem retrigger_callback_removes_new_voice :
    (playNotes true (fun _ => true) ["EP_C2", "EP_C2"] initialAudioState).active
      = [("EP_C2", 1)] ∧
    (voiceEnded "EP_C2"
        (playNotes true (fun _ => true) ["EP_C2", "EP_C2"] initialAudioState)).active
      = [] ∧
    ¬ countNote "EP_C2"
        (voiceEnded "EP_C2"
          (playNotes true (fun _ => true) ["EP_C2", "EP_C2"] initialAudioState)).active
        = 1 := by
  decide

/-- C2 (amended): when `playNote` fires for a note with a tracked active
voice, the old voice is stopped before the new one is stored and, when
`playNote` returns, the map holds exactly one entry for the note — the new
voice.  But once the stopped old voice's asynchronous `onended` callback runs,
that entry is deleted (the callback removes by note key), leaving zero entries
for the note.  At most one entry per note holds at all times (the map is
keyed by note). -/
theorem retrigger_hard_cut_single_entry (st : AudioState) (note : String)
    (loaded : String → Bool) (old : ℕ)
    (hnd : (st.active.map Prod.fst).Nodup)
    (hload : loaded note = true)
    (hold : objGet note st.active = some old) :
    old ∈ (playNote true loaded note st).stopped ∧
    countNote note (playNote true loaded note st).active = 1 ∧
    objGet note (playNote true loaded note st).active = some st.nextId ∧
    objGet note (voiceEnded note (playNote true loaded note st)).active = none := by
  by_cases hlen : MAX_POLYPHONY ≤ st.active.length
  · obtain ⟨hd, tl, hact⟩ : ∃ hd tl, st.active = hd :: tl := by
      cases h : st.active with
      | nil => rw [h] at hlen; simp [MAX_POLYPHONY] at hlen
      | cons hd tl => exact ⟨hd, tl, rfl⟩
    have hndtl : (tl.map Prod.fst).Nodup := by
      rw [hact] at hnd
      exact (List.nodup_cons.mp hnd).2
    rw [playNote_retrigger_evict st note loaded old hd tl hload hold hlen hact]
    refine ⟨by simp, ?_, ?_, ?_⟩
    · exact countNote_objSet note st.nextId tl hndtl
    · exact objGet_objSet_self note st.nextId tl
    · simp only [voiceEnded]
      rw [objDelete_objSet note st.nextId tl hndtl]
      exact objGet_objDelete_self note tl hndtl
  · rw [playNote_retrigger_noevict st note loaded old hload hold hlen]
    refine ⟨by simp, ?_, ?_, ?_⟩
    · exact countNote_objSet note st.nextId st.active hnd
    · exact objGet_objSet_self note st.nextId st.active
    · simp only [voiceEnded]
      rw [objDelete_objSet note st.nextId st.active hnd]
      exact objGet_objDelete_self note st.active hnd

/-- Witness for the amended C2 on a one-voice state. -/
theorem retrigger_hard_cut_single_entry_witness :
    (((([("EP_C2", 0)] : List (String × ℕ)).map Prod.fst).Nodup ∧
       (fun _ => true : String → Bool) "EP_C2" = true ∧
       objGet "EP_C2" [("EP_C2", 0)] = some 0) ∧
     (0 ∈ (playNote true (fun _ => true) "EP_C2"
         { active := [("EP_C2", 0)], nextId := 1, stopped := [] }).stopped ∧
      countNote "EP_C2" (playNote true (fun _ => true) "EP_C2"
         { active := [("EP_C2", 0)], nextId := 1, stopped := [] }).active = 1 ∧
      objGet "EP_C2" (playNote true (fun _ => true) "EP_C2"
         { active := [("EP_C2", 0)], nextId := 1, stopped := [] }).active = some 1 ∧
      objGet "EP_C2" (voiceEnded "EP_C2" (playNote true (fun _ => true) "EP_C2"
         { active := [("EP_C2", 0)], nextId := 1, stopped := [] })).active = none)) :=
  ⟨⟨by decide, by decide, by decide⟩,
   retrigger_hard_cut_single_entry
     { active := [("EP_C2", 0)], nextId := 1, stopped := [] }
     "EP_C2" (fun _ => true) 0 (by decide) (by decide) (by decide)⟩

/-- Trigger sequence refuting insertion-order = creation-order: 15 distinct
notes, a retrigger of the first, then two fresh notes (the second of which
forces an eviction at the 16-voice limit). -/
def retriggerSeq : List String :=
  NOTES.take 15 ++ ["EP_Bb2", "EP_E3", "EP_Gb2"]

/-- C3 counterexample: in `retriggerSeq`, the retrigger of `"EP_Bb2"` stores
its *new* source (creation index 15) at the map's first position (assignment
to an existing key keeps the key's position), so when `"EP_Gb2"` forces an
eviction, the code stops and removes voice 15 — while voice 1 (`"EP_Bb3"`,
the oldest-created active voice) stays active.  The eviction is therefore by
earliest-inserted *key*, not oldest-created *voice*. -/
theorem eviction_not_oldest_created :
    (playNotes true (fun _ => true) retriggerSeq initialAudioState).stopped
      = [0, 15] ∧
    objGet "EP_Bb3"
        (playNotes true (fun _ => true) retriggerSeq initialAudioState).active
      = some 1 ∧
    objGet "EP_Bb2"
        (playNotes true (fun _ => true) retriggerSeq initialAudioState).active
      = none ∧
    (∃ e ∈ (playNotes true (fun _ => true) (NOTES.take 15 ++ ["EP_Bb2", "EP_E3"])
        initialAudioState).active, e.2 < 15) := by
  decide

/-- C3 (amended): when the map already holds `MAX_POLYPHONY` entries and a
fresh note is admitted, `playNote` stops and removes the voice stored at the
*earliest-inserted key* (the head of the insertion-ordered map) — which is the
oldest-created voice whenever no retrigger has refreshed an older key — and
appends the new voice; and after 17 rapid distinct-note triggers with
`MAX_POLYPHONY = 16`, exactly 16 voices remain, the very first voice's note is
absent, and the other 16 notes are all active. -/
theorem eviction_removes_earliest_inserted_entry (st : AudioState)
    (note : String) (loaded : String → Bool) (hd : String × ℕ)
    (tl : List (String × ℕ))
    (hload : loaded note = true)
    (hfresh : objGet note st.active = none)
    (hfull : MAX_POLYPHONY ≤ st.active.length)
    (hact : st.active = hd :: tl) :
    (playNote true loaded note st).active = tl ++ [(note, st.nextId)] ∧
    (playNote true loaded note st).stopped = st.stopped ++ [hd.2] ∧
    (playNotes true (fun _ => true) (NOTES.take 17) initialAudioState).active.length
      = 16 ∧
    objGet "EP_Bb2"
        (playNotes true (fun _ => true) (NOTES.take 17) initialAudioState).active
      = none ∧
    (∀ nt ∈ (NOTES.take 17).drop 1,
      (objGet nt (playNotes true (fun _ => true) (NOTES.take 17)
        initialAudioState).active).isSome = true) := by
  have habs : ∀ e ∈ tl, e.1 ≠ note := by
    intro e he
    have := (objGet_eq_none_iff note st.active).mp hfresh
    exact this e (by rw [hact]; exact List.mem_cons_of_mem hd he)
  have hmain : playNote true loaded note st
      = { active := objSet note st.nextId tl,
          nextId := st.nextId + 1,
          stopped := st.stopped ++ [hd.2] } := by
    simp only [playNote, hload, hfresh, Bool.and_self, if_true]
    rw [if_pos hfull, hact]
  rw [hmain, objSet_append_of_absent note st.nextId tl habs]
  exact ⟨rfl, rfl, by decide, by decide, by decide⟩

/-- A full 16-voice audio state used to witness the eviction behaviour. -/
def fullAudioState : AudioState :=
  { active := [("a", 0), ("b", 1), ("c", 2), ("d", 3), ("e", 4), ("f", 5),
               ("g", 6), ("h", 7), ("i", 8), ("j", 9), ("k", 10), ("l", 11),
               ("m", 12), ("n", 13), ("o", 14), ("p", 15)],
    nextId := 16, stopped := [] }

/-- Witness for the amended C3: a fresh 17th note on a full 16-voice bank
evicts the head entry and appends the newcomer. -/
theorem eviction_removes_earliest_inserted_entry_witness :
    ((fun _ => true : String → Bool) "q" = true ∧
     objGet "q" fullAudioState.active = none ∧
     MAX_POLYPHONY ≤ fullAudioState.active.length ∧
     fullAudioState.active = ("a", 0) :: fullAudioState.active.tail) ∧
    (playNote true (fun _ => true) "q" fullAudioState).active
      = fullAudioState.active.tail ++ [("q", 16)] ∧
    (playNote true (fun _ => true) "q" fullAudioState).stopped = [] ++ [0] :=
  ⟨⟨by decide, by decide, by decide, by decide⟩,
   (eviction_removes_earliest_inserted_entry fullAudioState "q" (fun _ => true)
     ("a", 0) fullAudioState.active.tail (by decide) (by decide) (by decide)
     (by decide)).1,
   (eviction_removes_earliest_inserted_entry fullAudioState "q" (fun _ => true)
     ("a", 0) fullAudioState.active.tail (by decide) (by decide) (by decide)
     (by decide)).2.1⟩

/-- Every candidate point lies within the 20%-of-width inset margin box
(given in-range random draws and a tall-enough canvas). -/
lemma attemptPoint_bounds (rand : ℕ → ℚ × ℚ) (c : Canvas) (k : ℕ)
    (hr : 0 ≤ (rand k).1 ∧ (rand k).1 ≤ 1 ∧ 0 ≤ (rand k).2 ∧ (rand k).2 ≤ 1)
    (hw : 0 < c.width) (hh : c.width * (2 / 5) ≤ c.height) :
    c.width * (1 / 5) ≤ (attemptPoint rand c k).1 ∧
    (attemptPoint rand c k).1 ≤ c.width - c.width * (1 / 5) ∧
    c.width * (1 / 5) ≤ (attemptPoint rand c k).2 ∧
    (attemptPoint rand c k).2 ≤ c.height - c.width * (1 / 5) := by
  obtain ⟨h1, h2, h3, h4⟩ := hr
  simp only [attemptPoint]
  have hxm : 0 ≤ c.width - 2 * (c.width * (1 / 5)) := by nlinarith
  have hym : 0 ≤ c.height - 2 * (c.width * (1 / 5)) := by nlinarith
  refine ⟨by nlinarith [mul_nonneg h1 hxm], ?_, by nlinarith [mul_nonneg h3 hym], ?_⟩
  · nlinarith [mul_le_mul_of_nonneg_right h2 hxm]
  · nlinarith [mul_le_mul_of_nonneg_right h4 hym]

/-- An accepted candidate really is farther than `2 × INITIAL_RADIUS` from
every existing particle (whose coordinates must then all be finite), provided
the square-root oracle orders correctly against `INITIAL_RADIUS * 2` on
non-negative inputs. -/
lemma isFarEnough_spec (sq : ℚ → ℚ) (existing : List Particle) (x y : ℚ)
    (hsq : ∀ q, 0 ≤ q → (INITIAL_RADIUS * 2 < sq q ↔ (INITIAL_RADIUS * 2) ^ 2 < q))
    (hfar : isFarEnough sq existing x y = true) :
    ∀ p ∈ existing, ∃ px py, p.x = some px ∧ p.y = some py ∧
      (INITIAL_RADIUS * 2) ^ 2 < (px - x) ^ 2 + (py - y) ^ 2 := by
  intro p hp
  have h := (List.all_eq_true.mp hfar) p hp
  cases hx : p.x with
  | none => rw [hx] at h; simp [jsSub, jsMul, jsAdd, jsSqrt, jsLt] at h
  | some px =>
    cases hy : p.y with
    | none => rw [hx, hy] at h; simp [jsSub, jsMul, jsAdd, jsSqrt, jsLt] at h
    | some py =>
      rw [hx, hy] at h
      simp only [jsSub, jsMul, jsAdd, jsSqrt] at h
      have hpos : ¬ ((px - x) * (px - x) + (py - y) * (py - y) < 0) := by nlinarith
      rw [if_neg hpos] at h
      simp only [jsLt, decide_eq_true_eq] at h
      have h0 : (0 : ℚ) ≤ (px - x) * (px - x) + (py - y) * (py - y) := by nlinarith
      have := (hsq _ h0).mp h
      exact ⟨px, py, rfl, rfl, by nlinarith [this]⟩

/-- C8: `getRandomPosition` performs rejection sampling with at most 100
attempts: it either returns the first candidate point that the acceptance
test passes — a point inside the 20%-of-width margin box whose distance to
every existing particle exceeds `2 × INITIAL_RADIUS` — or, when all 100
candidates fail, deterministically returns the arena centre (which also lies
in the margin box); the call never fails. -/
theorem spawn_rejection_sampling (sq : ℚ → ℚ) (rand : ℕ → ℚ × ℚ) (c : Canvas)
    (existing : List Particle) (radius : ℚ)
    (hsq : ∀ q, 0 ≤ q → (INITIAL_RADIUS * 2 < sq q ↔ (INITIAL_RADIUS * 2) ^ 2 < q))
    (hrand : ∀ k, 0 ≤ (rand k).1 ∧ (rand k).1 ≤ 1 ∧ 0 ≤ (rand k).2 ∧ (rand k).2 ≤ 1)
    (hw : 0 < c.width) (hh : c.width * (2 / 5) ≤ c.height) :
    (c.width * (1 / 5) ≤ (getRandomPosition sq rand c existing radius).1 ∧
     (getRandomPosition sq rand c existing radius).1 ≤ c.width - c.width * (1 / 5) ∧
     c.width * (1 / 5) ≤ (getRandomPosition sq rand c existing radius).2 ∧
     (getRandomPosition sq rand c existing radius).2
       ≤ c.height - c.width * (1 / 5)) ∧
    (((∀ k < 100, isFarEnough sq existing (attemptPoint rand c k).1
          (attemptPoint rand c k).2 = false) ∧
       getRandomPosition sq rand c existing radius = (c.width / 2, c.height / 2)) ∨
     (∃ k < 100,
       getRandomPosition sq rand c existing radius = attemptPoint rand c k ∧
       isFarEnough sq existing (attemptPoint rand c k).1
         (attemptPoint rand c k).2 = true ∧
       ∀ p ∈ existing, ∃ px py, p.x = some px ∧ p.y = some py ∧
         (INITIAL_RADIUS * 2) ^ 2 <
           (px - (attemptPoint rand c k).1) ^ 2 +
           (py - (attemptPoint rand c k).2) ^ 2)) := by
  rcases hfind : (List.range 100).find? (fun k =>
      isFarEnough sq existing (attemptPoint rand c k).1 (attemptPoint rand c k).2)
    with _ | k
  · have hall : ∀ k < 100, isFarEnough sq existing (attemptPoint rand c k).1
        (attemptPoint rand c k).2 = false := by
      intro k hk
      have := List.find?_eq_none.mp hfind k (List.mem_range.mpr hk)
      simpa using this
    have hres : getRandomPosition sq rand c existing radius
        = (c.width / 2, c.height / 2) := by
      simp only [getRandomPosition, hfind]
    rw [hres]
    constructor
    · refine ⟨by nlinarith, by nlinarith, by nlinarith, by nlinarith⟩
    · exact Or.inl ⟨hall, rfl⟩
  · have hk100 : k < 100 :=
      List.mem_range.mp (List.mem_of_find?_eq_some hfind)
    have hkfar : isFarEnough sq existing (attemptPoint rand c k).1
        (attemptPoint rand c k).2 = true := by
      simpa using List.find?_some hfind
    have hres : getRandomPosition sq rand c existing radius
        = attemptPoint rand c k := by
      simp only [getRandomPosition, hfind]
    rw [hres]
    constructor
    · exact attemptPoint_bounds rand c k (hrand k) hw hh
    · exact Or.inr ⟨k, hk100, rfl, hkfar,
        isFarEnough_spec sq existing _ _ hsq hkfar⟩

/-- Witness for C8: empty arena, constant draws at 1/2 — the first candidate
(the canvas centre of a 1000×1000 arena) is accepted. -/
theorem spawn_rejection_sampling_witness :
    ((0 : ℚ) < 1000 ∧ (1000 : ℚ) * (2 / 5) ≤ 1000) ∧
    ((1000 : ℚ) * (1 / 5) ≤ (getRandomPosition
        (fun q => if (INITIAL_RADIUS * 2) ^ 2 < q then (400 : ℚ) else 0)
        (fun _ => (1 / 2, 1 / 2)) { width := 1000, height := 1000 } [] 150).1 ∧
     (getRandomPosition
        (fun q => if (INITIAL_RADIUS * 2) ^ 2 < q then (400 : ℚ) else 0)
        (fun _ => (1 / 2, 1 / 2)) { width := 1000, height := 1000 } [] 150).1
       ≤ 1000 - 1000 * (1 / 5)) :=
  ⟨⟨by norm_num, by norm_num⟩,
   by
    have h := spawn_rejection_sampling
      (fun q => if (INITIAL_RADIUS * 2) ^ 2 < q then (400 : ℚ) else 0)
      (fun _ => (1 / 2, 1 / 2)) { width := 1000, height := 1000 } [] 150
      (fun q hq => by
        by_cases hc : (90000 : ℚ) < q <;>
          norm_num [hc, INITIAL_RADIUS])
      (fun _ => by norm_num) (by norm_num) (by norm_num)
    exact ⟨h.1.1, h.1.2.1⟩⟩

end MusicBalls
